import Mathlib

/-!
# Verification of the webvoyager agent core

Shallow embedding of the session/protocol client (`sequrity_client.py`), the
two computer-use agents (`sequrity_cua.py`, `sequrity_cua_multi_turn.py`) and
their control-loop bookkeeping, together with proofs settling the frozen
claims about the repository.

Python values flowing through the client are modelled by the inductive `Json`
(the subset the program manipulates: `None`, booleans, integers, strings,
lists, dicts).  Fallible Python code is modelled with `Option`/`Except`; an
`Except.error` stands for an exception propagating out of the modelled
function.
-/

/-- JSON / Python values as handled by `sequrity_client.py`.  Dicts are kept
as association lists in insertion order; numbers are restricted to integers
(the program never manipulates fractional JSON numbers). -/
inductive Json where
  | null : Json
  | bool : Bool → Json
  | int : Int → Json
  | str : String → Json
  | arr : List Json → Json
  | obj : List (String × Json) → Json

/-- `True` exactly on string values; `content.strip()` in
`Message._extract_content` is only defined on these. -/
def Json.isStr : Json → Bool
  | .str _ => true
  | _ => false

/-- `True` exactly on dict values (`isinstance(value, dict)`). -/
def Json.isObj : Json → Bool
  | .obj _ => true
  | _ => false

/-- Python truthiness (`if thought:` …) for the values of `Json`. -/
def truthy : Json → Bool
  | .null => false
  | .bool b => b
  | .int n => n != 0
  | .str s => s != ""
  | .arr l => !l.isEmpty
  | .obj l => !l.isEmpty

/-- `", ".join` over already-rendered fragments. -/
def joinComma : List String → String
  | [] => ""
  | [x] => x
  | x :: rest => x ++ ", " ++ joinComma rest

mutual

/-- Python `repr` for the values of `Json` (escaping of quotes inside strings
is not modelled; no claim evaluates `repr` on such a string). -/
def pyRepr : Json → String
  | .null => "None"
  | .bool b => if b then "True" else "False"
  | .int n => toString n
  | .str s => "\x27" ++ s ++ "\x27"
  | .arr l => "[" ++ joinComma (pyReprList l) ++ "]"
  | .obj kvs => "\x7b" ++ joinComma (pyReprPairs kvs) ++ "\x7d"

/-- `repr` of the elements of a Python list. -/
def pyReprList : List Json → List String
  | [] => []
  | v :: rest => pyRepr v :: pyReprList rest

/-- `repr` of the `key: value` members of a Python dict. -/
def pyReprPairs : List (String × Json) → List String
  | [] => []
  | (k, v) :: rest => ("\x27" ++ k ++ "\x27: " ++ pyRepr v) :: pyReprPairs rest

end

/-- Python `str` on `Json` values: the identity on strings, `repr` otherwise
(as used by `str(value)` and by f-string interpolation in `_format_value`). -/
def pyStr (v : Json) : String :=
  match v with
  | .str s => s
  | v => pyRepr v

/-- Whitespace accepted between JSON tokens by `json.loads`. -/
def isJsonWs (c : Char) : Bool :=
  c == ' ' || c == '\t' || c == '\n' || c == '\r'

/-- Drop leading JSON whitespace. -/
def skipWs : List Char → List Char
  | [] => []
  | c :: cs => if isJsonWs c then skipWs cs else c :: cs

/-- Body of a JSON string literal, after the opening quote.  Escape handling
covers the escapes the program's payloads use (`\"`, `\\`, `\n`, `\t`, `\r`);
other escaped characters are taken literally. -/
def parseStringBody (fuel : Nat) (cs : List Char) (acc : List Char) :
    Option (String × List Char) :=
  match fuel, cs with
  | 0, _ => none
  | _, [] => none
  | fuel + 1, c :: cs =>
    if c == '"' then some (String.mk acc.reverse, cs)
    else if c == '\\' then
      match cs with
      | [] => none
      | e :: cs2 =>
        let d := if e == 'n' then '\n' else if e == 't' then '\t'
                 else if e == 'r' then '\r' else e
        parseStringBody fuel cs2 (d :: acc)
    else parseStringBody fuel cs (c :: acc)

/-- Decimal digit run, accumulating its value. -/
def parseDigits (fuel : Nat) (cs : List Char) (acc : Nat) (seen : Bool) :
    Option (Nat × List Char) :=
  match fuel, cs with
  | 0, _ => none
  | _, [] => if seen then some (acc, []) else none
  | fuel + 1, c :: rest =>
    if c.isDigit then parseDigits fuel rest (acc * 10 + (c.toNat - 48)) true
    else if seen then some (acc, c :: rest) else none

/-- `True` when `sfx` is a literal prefix of `cs`. -/
def charsHaveLead (sfx cs : List Char) : Bool :=
  sfx.isPrefixOf cs

mutual

/-- Recursive-descent JSON value, modelling `json.loads`.  `fuel` strictly
exceeds the remaining input length, which every recursive call shortens. -/
def parseJsonVal (fuel : Nat) (cs : List Char) : Option (Json × List Char) :=
  match fuel with
  | 0 => none
  | fuel + 1 =>
    match skipWs cs with
    | [] => none
    | c :: rest =>
      if c == '"' then
        (parseStringBody fuel rest []).map fun (s, r) => (Json.str s, r)
      else if c == '\x7b' then parseJsonObj fuel rest []
      else if c == '[' then parseJsonArr fuel rest []
      else if charsHaveLead ['t', 'r', 'u', 'e'] (c :: rest) then
        some (Json.bool true, (c :: rest).drop 4)
      else if charsHaveLead ['f', 'a', 'l', 's', 'e'] (c :: rest) then
        some (Json.bool false, (c :: rest).drop 5)
      else if charsHaveLead ['n', 'u', 'l', 'l'] (c :: rest) then
        some (Json.null, (c :: rest).drop 4)
      else if c == '-' then
        (parseDigits fuel rest 0 false).map fun (n, r) => (Json.int (-(n : Int)), r)
      else if c.isDigit then
        (parseDigits fuel (c :: rest) 0 false).map fun (n, r) => (Json.int (n : Int), r)
      else none

/-- Members of a JSON object, after the opening brace or a comma. -/
def parseJsonObj (fuel : Nat) (cs : List Char) (acc : List (String × Json)) :
    Option (Json × List Char) :=
  match fuel with
  | 0 => none
  | fuel + 1 =>
    match skipWs cs with
    | [] => none
    | c :: rest =>
      if c == '\x7d' && acc.isEmpty then some (Json.obj [], rest)
      else if c == '"' then
        match parseStringBody fuel rest [] with
        | none => none
        | some (k, cs2) =>
          match skipWs cs2 with
          | ':' :: cs3 =>
            match parseJsonVal fuel cs3 with
            | none => none
            | some (v, cs4) =>
              match skipWs cs4 with
              | ',' :: cs5 => parseJsonObj fuel cs5 (acc ++ [(k, v)])
              | c2 :: cs5 =>
                if c2 == '\x7d' then some (Json.obj (acc ++ [(k, v)]), cs5) else none
              | [] => none
          | _ => none
      else none

/-- Elements of a JSON array, after the opening bracket or a comma. -/
def parseJsonArr (fuel : Nat) (cs : List Char) (acc : List Json) :
    Option (Json × List Char) :=
  match fuel with
  | 0 => none
  | fuel + 1 =>
    match skipWs cs with
    | [] => none
    | c :: rest =>
      if c == ']' && acc.isEmpty then some (Json.arr [], rest)
      else
        match parseJsonVal fuel (c :: rest) with
        | none => none
        | some (v, cs2) =>
          match skipWs cs2 with
          | ',' :: cs3 => parseJsonArr fuel cs3 (acc ++ [v])
          | c2 :: cs3 => if c2 == ']' then some (Json.arr (acc ++ [v]), cs3) else none
          | [] => none

end

/-- `json.loads` on a string: parse one value and require only whitespace to
remain; `none` models `json.JSONDecodeError`. -/
def jsonLoads (s : String) : Option Json :=
  match parseJsonVal (s.length + 1) s.data with
  | some (v, rest) => if (skipWs rest).isEmpty then some v else none
  | none => none

/-! ## `Message._extract_content` / `Message._format_value` (sequrity_client.py:35-74) -/

/-- `k in hay` for character lists (Python substring membership). -/
def charsContainSub (needle : List Char) : List Char → Bool
  | [] => needle.isEmpty
  | c :: rest => needle.isPrefixOf (c :: rest) || charsContainSub needle rest

/-- Python `key in v`.  Dicts test key membership, strings test substring
membership, lists test element equality against the string (non-string
elements compare unequal); other receivers raise `TypeError`, modelled as
`Except.error`. -/
def pyContains (v : Json) (k : String) : Except Unit Bool :=
  match v with
  | .obj kvs => .ok (kvs.any fun p => p.1 == k)
  | .str s => .ok (charsContainSub k.data s.data)
  | .arr l => .ok (l.any fun x => match x with | .str t => t == k | _ => false)
  | _ => .error ()

/-- Python `v[k]` with a string key: dict lookup (`KeyError` when missing),
`TypeError` on any other receiver. -/
def pyIndex (v : Json) (k : String) : Except Unit Json :=
  match v with
  | .obj kvs =>
    match kvs.find? (fun p => p.1 == k) with
    | some p => .ok p.2
    | none => .error ()
  | _ => .error ()

/-- Python `value.get(k)`: the stored value, or `None` when absent. -/
def pyGet (kvs : List (String × Json)) (k : String) : Json :=
  match kvs.find? (fun p => p.1 == k) with
  | some p => p.2
  | none => .null

/-- Python `a or b`: `a` when truthy, else `b`. -/
def pyOr (a b : Json) : Json :=
  if truthy a then a else b

/-- `"\n".join(parts)`. -/
def joinLines : List String → String
  | [] => ""
  | [x] => x
  | x :: rest => x ++ "\n" ++ joinLines rest

/-- `Message._format_value` (sequrity_client.py:59-74): non-dicts are
stringified; dicts render a `Thought:` line and an `Action:` line for the
truthy thought/action fields (lowercase keys taking precedence over
capitalized ones via Python `or`), falling back to `str(value)` when neither
is present. -/
def formatValue (value : Json) : String :=
  match value with
  | .obj kvs =>
    let thought := pyOr (pyGet kvs "thought") (pyGet kvs "Thought")
    let act := pyOr (pyGet kvs "action") (pyGet kvs "Action")
    let parts : List String :=
      (if truthy thought then ["Thought: " ++ pyStr thought] else []) ++
      (if truthy act then ["Action: " ++ pyStr act] else [])
    if parts.isEmpty then pyStr value else joinLines parts
  | v => pyStr v

/-- First `try` block of `Message._extract_content` (sequrity_client.py:38-44):
`json.loads` the content and, when the parse yields the
`final_return_value`/`value` wrapper, return the formatted inner value.
`none` means the block fell through: a `json.JSONDecodeError`/`TypeError` was
caught (including `json.loads` on a non-string) or the wrapper keys were
absent. -/
def extractContentUnwrap (content : Json) : Option String :=
  match content with
  | .str s =>
    match jsonLoads s with
    | none => none
    | some parsed =>
      match pyContains parsed "final_return_value" with
      | .error _ => none
      | .ok false => none
      | .ok true =>
        match pyIndex parsed "final_return_value" with
        | .error _ => none
        | .ok fv =>
          match pyContains fv "value" with
          | .error _ => none
          | .ok false => none
          | .ok true =>
            match pyIndex fv "value" with
            | .error _ => none
            | .ok v => some (formatValue v)
  | _ => none

/-- `Message._extract_content` (sequrity_client.py:35-57).  After the wrapper
attempt, contents that look like a single- or double-quote-braced mapping are
best-effort re-parsed with apostrophes replaced by double quotes; any
conversion failure falls back to the raw string.  A non-string content
reaches `content.strip()` and raises `AttributeError`, modelled as
`Except.error`.  (`String.trim` stands for Python `str.strip`.) -/
def extractContent (content : Json) : Except String String :=
  match extractContentUnwrap content with
  | some r => .ok r
  | none =>
    match content with
    | .str s =>
      let t := s.trim
      if t.startsWith "\x7b\x27" || t.startsWith "\x7b\"" then
        match jsonLoads (t.replace "\x27" "\"") with
        | some parsed => .ok (formatValue parsed)
        | none => .ok s
      else .ok s
    | _ => .error "AttributeError"

/-! ## Session handling (sequrity_client.py:116-153, 204-231, 252-256) -/

/-- Lower-case an ASCII character (for case-insensitive header lookup). -/
def lowerChar (c : Char) : Char :=
  if 'A' ≤ c ∧ c ≤ 'Z' then Char.ofNat (c.toNat + 32) else c

/-- Lower-case a header name. -/
def lowerStr (s : String) : String :=
  String.mk (s.data.map lowerChar)

/-- Case-insensitive header lookup, as provided by the `requests` response
header map. -/
def lookupHeader (headers : List (String × String)) (key : String) : Option String :=
  (headers.find? fun p => lowerStr p.1 == lowerStr key).map fun p => p.2

/-- sequrity_client.py:206-210: `response.headers.get("x-session-id") or
response.headers.get("X-Session-Id")` — both lookups agree on the
case-insensitive header map — followed by `if not session_id`, which treats
an empty-string header like a missing one. -/
def sessionIdFromHeaders (headers : List (String × String)) : Option String :=
  match lookupHeader headers "x-session-id" with
  | some s => if s == "" then none else some s
  | none => none

/-- sequrity_client.py:214-216: the first choice's `finish_reason`, `None`
when the response carries no choices.  A response's choices are summarized by
their optional finish reasons. -/
def finishReasonOf (choices : List (Option String)) : Option String :=
  match choices with
  | [] => none
  | fr :: _ => fr

/-- `ChatCompletions._handle_session_id` (sequrity_client.py:204-225) as a
function from the response (headers + choices) to the new cached session id:
a missing/empty header clears the cache, `finish_reason == "stop"` clears it,
any other finish reason caches the header value. -/
def handleSessionId (headers : List (String × String))
    (choices : List (Option String)) : Option String :=
  match sessionIdFromHeaders headers with
  | none => none
  | some sid => if finishReasonOf choices == some "stop" then none else some sid

/-- `ChatCompletions._build_headers` (sequrity_client.py:116-153): the fixed
headers (authorization and security configuration, whose values are
irrelevant to session logic and abbreviated here), plus `X-Session-Id`
exactly when a session id is cached. -/
def buildHeaders (cachedSessionId : Option String) : List (String × String) :=
  let base := [("Content-Type", "application/json"),
               ("Authorization", "Bearer <api-key>"),
               ("X-Security-Policy", "<policy-json>"),
               ("X-Security-Features", "<features-json>"),
               ("X-Security-Config", "<config-json>")]
  match cachedSessionId with
  | some sid => base ++ [("X-Session-Id", sid)]
  | none => base

/-- Whether a built request carries the session continuation header. -/
def hasSessionHeader (headers : List (String × String)) : Bool :=
  headers.any fun p => p.1 == "X-Session-Id"

/-! ## Action executors (sequrity_cua.py:508-643, sequrity_cua_multi_turn.py:365-448)

Browser side effects are recorded as a list of operation names; the driver's
behaviour at the matched element is summarized by boolean parameters saying
whether the corresponding driver call succeeds or raises. -/

/-- The miss message of both executors:
`f"Element with label [{label}] not found"`. -/
def notFoundMsg (lbl : String) : String :=
  "Element with label [" ++ lbl ++ "] not found"

/-- sequrity_cua.py binds `logger` only as a local variable of `main`
(line 672); no module-level binding exists, so evaluating `logger.warning`
inside `execute_action` (line 539) raises `NameError`. -/
def cuaModuleLoggerLookup : Except String Unit :=
  .error "name \x27logger\x27 is not defined"

/-- The `except` handler of the click branch (sequrity_cua.py:537-542): it
first evaluates `logger.warning(...)`, then performs the JavaScript click.
An `Except.error` is an exception escaping the handler to the outer
`except Exception` of `execute_action`. -/
def cuaClickFallback (lbl : String) (jsClickOk : Bool) :
    Except String (List String × Bool × String) := do
  let _ ← cuaModuleLoggerLookup
  if jsClickOk then
    pure (["jsClick"], true, "Clicked element [" ++ lbl ++ "] (via JS)")
  else throw "js click raised"

/-- `click_element` branch of `execute_action` (sequrity_cua.py:519-543).
The `for`/`if` scan over `labeled_elements` is the first exact string match
of the label.  On a match: scroll into view, force same-tab target, native
click; if the native click raises, run the `except` handler; an exception
escaping it is caught by the outer handler as
`f"Error executing click_element: {e}"`. -/
def cuaClickElement (labels : List String) (lbl : String)
    (nativeClickOk jsClickOk : Bool) : List String × Bool × String :=
  match labels.find? (fun l => l == lbl) with
  | none => ([], false, notFoundMsg lbl)
  | some _ =>
    let pre := ["scrollIntoView", "setTargetSelf"]
    if nativeClickOk then
      (pre ++ ["nativeClick"], true, "Clicked element [" ++ lbl ++ "]")
    else
      match cuaClickFallback lbl jsClickOk with
      | .ok (ops, ok, msg) => (pre ++ ["nativeClick"] ++ ops, ok, msg)
      | .error e =>
        (pre ++ ["nativeClick"], false, "Error executing click_element: " ++ e)

/-- `type_text` branch of `execute_action` (sequrity_cua.py:545-588): first
exact label match gets the scroll/clear/click-focus/type/submit gesture
sequence (summarized as operation names); a miss performs nothing and fails
with the not-found message. -/
def cuaTypeText (labels : List String) (lbl content : String) :
    List String × Bool × String :=
  match labels.find? (fun l => l == lbl) with
  | none => ([], false, notFoundMsg lbl)
  | some _ =>
    (["scrollIntoView", "clearField", "clickFocus", "typeKeys", "pressEnter"],
      true, "Typed \x27" ++ content ++ "\x27 into element [" ++ lbl ++ "]")

/-- `click_element` branch of the multi-turn `execute_action`
(sequrity_cua_multi_turn.py:376-395): a single JavaScript click on the first
exact label match; a raising click is caught by the outer handler. -/
def mtClickElement (labels : List String) (lbl : String) (jsClickOk : Bool) :
    List String × Bool × String :=
  match labels.find? (fun l => l == lbl) with
  | none => ([], false, notFoundMsg lbl)
  | some _ =>
    if jsClickOk then (["jsClick"], true, "Clicked element [" ++ lbl ++ "]")
    else (["jsClick"], false, "Error executing click_element: js click raised")

/-- `type_text` branch of the multi-turn `execute_action`
(sequrity_cua_multi_turn.py:397-408). -/
def mtTypeText (labels : List String) (lbl content : String) :
    List String × Bool × String :=
  match labels.find? (fun l => l == lbl) with
  | none => ([], false, notFoundMsg lbl)
  | some _ =>
    (["clearField", "typeKeys", "pressEnter"], true,
      "Typed \x27" ++ content ++ "\x27 into element [" ++ lbl ++ "]")

/-- Window branch of `scroll_page` in sequrity_cua.py:590-601: the signed
`window.scrollBy` offset, `scroll_amount = window_height * 2 // 3`, positive
for `"down"` and negative otherwise. -/
def cuaWindowScrollDelta (windowHeight : Nat) (direction : String) : Int :=
  let scrollAmount : Nat := windowHeight * 2 / 3
  if direction == "down" then (scrollAmount : Int) else -(scrollAmount : Int)

/-- Window branch of `scroll_page` in sequrity_cua_multi_turn.py:410-416:
`scroll_amount = 500 if direction == "down" else -500`, independent of the
viewport height. -/
def mtWindowScrollDelta (direction : String) : Int :=
  if direction == "down" then 500 else -500

/-! ## Progress tracking (sequrity_cua.py:452-486) -/

/-- `SequrityCUA` progress fields (sequrity_cua.py:304-306). -/
structure ProgressState where
  failedActions : List String
  lastUrl : Option String
  stuckCount : Nat

/-- `f"{tool_name}:{json.dumps(arguments)}"`; `argsDump` stands for the
`json.dumps` rendering of the argument dict. -/
def failedKey (toolName argsDump : String) : String :=
  toolName ++ ":" ++ argsDump

/-- The failure log after the update at sequrity_cua.py:462-464. -/
def failedActionsAfter (st : ProgressState) (key : String) (success : Bool) :
    List String :=
  if success then st.failedActions else st.failedActions ++ [key]

/-- `len(set(recent)) == 1` over the last three entries. -/
def lastThreeIdentical (l : List String) : Bool :=
  match l.reverse with
  | a :: b :: c :: _ => a == b && b == c
  | _ => false

/-- The early-return condition of `track_progress`
(sequrity_cua.py:466-472): the action failed and the last three logged
failures share one fingerprint. -/
def repeatedFailureFires (st : ProgressState) (key : String) (success : Bool) :
    Bool :=
  !success && decide (3 ≤ (failedActionsAfter st key success).length) &&
    lastThreeIdentical (failedActionsAfter st key success)

/-- The action kinds excluded from the unchanged-URL increment
(sequrity_cua.py:476-477). -/
def nonNavigationActions : List String :=
  ["wait", "scroll_page", "type_text"]

/-- `SequrityCUA.track_progress` (sequrity_cua.py:452-486).  Returns the new
progress state and the boolean result (`True` = stuck).  On the repeated
failure branch the method returns early, leaving `last_url` unchanged;
otherwise the counter is incremented on an unchanged URL for non-URL-agnostic
action kinds — whether or not the action succeeded — reset to zero on a
changed URL, and `last_url` is updated. -/
def trackProgress (st : ProgressState) (toolName argsDump : String)
    (success : Bool) (currentUrl : String) : ProgressState × Bool :=
  let key := failedKey toolName argsDump
  let st1 : ProgressState := { st with failedActions := failedActionsAfter st key success }
  if repeatedFailureFires st key success then
    ({ st1 with stuckCount := st1.stuckCount + 1 }, true)
  else
    let st2 : ProgressState :=
      if st1.lastUrl == some currentUrl then
        if nonNavigationActions.contains toolName then st1
        else { st1 with stuckCount := st1.stuckCount + 1 }
      else { st1 with stuckCount := 0 }
    let st3 : ProgressState := { st2 with lastUrl := some currentUrl }
    (st3, decide (3 ≤ st3.stuckCount))

/-! ## The control loop's own stuck bookkeeping (sequrity_cua.py:869-989)

`main` never calls `track_progress`; it keeps its own
`actions_without_progress` counter with the hard-coded bound
`max_actions_without_progress = 5` (lines 871-872), incremented on every
failed action (line 977) and reset to zero only when a successful action
changed the URL (lines 979-983). -/

/-- The loop-local progress fields of `main`. -/
structure MainLoopState where
  actionsWithoutProgress : Nat
  lastUrl : Option String

/-- One iteration's bookkeeping after `execute_action` (lines 975-989):
update the counter/URL, then report whether the `>= 5` stuck break fires. -/
def mainLoopUpdate (st : MainLoopState) (success : Bool) (currentUrl : String) :
    MainLoopState × Bool :=
  let st1 : MainLoopState :=
    if !success then { st with actionsWithoutProgress := st.actionsWithoutProgress + 1 }
    else if some currentUrl != st.lastUrl then ⟨0, some currentUrl⟩
    else st
  (st1, decide (5 ≤ st1.actionsWithoutProgress))

/-- Run the loop bookkeeping over a list of `(success, url)` action outcomes:
each listed action is executed, then its bookkeeping runs; the loop stops at
the first stuck break.  Returns the final state, the number of actions
actually executed, and whether the stuck break fired. -/
def runMainLoop (st : MainLoopState) : List (Bool × String) → MainLoopState × Nat × Bool
  | [] => (st, 0, false)
  | (success, url) :: rest =>
    let (st1, broke) := mainLoopUpdate st success url
    if broke then (st1, 1, true)
    else
      let (st2, n, b) := runMainLoop st1 rest
      (st2, n + 1, b)

/-! ## Conversation and session state (sequrity_cua.py:293-505,
sequrity_cua_multi_turn.py:249-362) -/

/-- A conversation turn as stored in `self.messages` (role + content;
tool-call payloads are modelled separately where needed). -/
structure Turn where
  role : String
  content : String

/-- The mutable state of a `SequrityCUA` agent together with its client's
cached session id (sequrity_cua.py:296-306, sequrity_client.py:249). -/
structure CuaAgentState where
  clientSessionId : Option String
  messages : List Turn
  failedActions : List String
  lastUrl : Option String
  stuckCount : Nat

/-- `SequrityCUA.reset_session` (sequrity_cua.py:499-505): clears the
client's session id (`SequrityAI.reset_session`, sequrity_client.py:252-256)
and the conversation history and all progress fields in one call. -/
def cuaResetSession (_st : CuaAgentState) : CuaAgentState :=
  { clientSessionId := none, messages := [], failedActions := [],
    lastUrl := none, stuckCount := 0 }

/-- The mutable state of a `SequrityCUAMultiTurn` agent together with its
client's cached session id (sequrity_cua_multi_turn.py:252-258). -/
structure MtAgentState where
  clientSessionId : Option String
  messages : List Turn

/-- The entry of `SequrityCUAMultiTurn.get_next_action`
(sequrity_cua_multi_turn.py:281-307): `self.client.reset_session()` clears
the session token for the fresh turn while `self.messages` keeps
accumulating (the observation user turn is appended to the retained
history). -/
def mtGetNextActionEnter (st : MtAgentState) (observation : Turn) : MtAgentState :=
  { clientSessionId := none, messages := st.messages ++ [observation] }

/-! ## Tool-call selection in `get_next_action` (sequrity_cua.py:391-419,
sequrity_cua_multi_turn.py:328-354) -/

/-- One entry of a normalized response's `tool_calls`. -/
structure ToolCallRec where
  id : String
  type : String
  name : String
  arguments : String

/-- The assistant turn appended to `self.messages`: the reasoning content
plus the recorded tool calls (`[]` models an absent `tool_calls` key). -/
structure AssistantTurn where
  content : String
  toolCalls : List ToolCallRec

/-- The action dict returned by `get_next_action`. -/
structure NextAction where
  toolName : String
  arguments : Option Json
  reasoning : String
  toolCallId : String

/-- `SequrityCUA.get_next_action`, response-handling part
(sequrity_cua.py:386-419): when the message carries tool calls, only
`message.tool_calls[0]` is recorded in the assistant turn and returned as
the action, `arguments` going through `json.loads` (a parse failure raises
in Python; here the `arguments` field is the parse result).  With no tool
calls the assistant turn is recorded and no action is returned (the
session-retrieval return value of that branch carries no action). -/
def cuaGetNextActionStep (content : String) (toolCalls : List ToolCallRec) :
    AssistantTurn × Option NextAction :=
  match toolCalls with
  | [] => (⟨content, []⟩, none)
  | tc :: _ =>
    (⟨content, [tc]⟩,
      some ⟨tc.name, jsonLoads tc.arguments, content, tc.id⟩)

/-- `SequrityCUAMultiTurn.get_next_action`, response-handling part
(sequrity_cua_multi_turn.py:319-354): identical first-tool-call selection. -/
def mtGetNextActionStep (content : String) (toolCalls : List ToolCallRec) :
    AssistantTurn × Option NextAction :=
  match toolCalls with
  | [] => (⟨content, []⟩, none)
  | tc :: _ =>
    (⟨content, [tc]⟩,
      some ⟨tc.name, jsonLoads tc.arguments, content, tc.id⟩)

/-! ## Claim theorems -/

/-- Helper: the built request carries `X-Session-Id` exactly when a session
id is cached. -/
theorem hasSessionHeader_buildHeaders (c : Option String) :
    hasSessionHeader (buildHeaders c) = c.isSome := by
  cases c <;> rfl

/-- C1: the session continuation header is attached to request N+1 iff
response N's finish reason was not `"stop"` (given the response delivered a
session id): after `finish_reason = "stop"` the cached id is cleared, after
any other finish reason the id read case-insensitively from the response
headers is cached and sent on the next request, and a response without a
session-id header clears the cached id. -/
theorem C1_session_header_iff (respHeaders : List (String × String))
    (choices : List (Option String)) :
    (finishReasonOf choices = some "stop" →
      handleSessionId respHeaders choices = none) ∧
    (sessionIdFromHeaders respHeaders = none →
      handleSessionId respHeaders choices = none) ∧
    (∀ sid, sessionIdFromHeaders respHeaders = some sid →
      finishReasonOf choices ≠ some "stop" →
      handleSessionId respHeaders choices = some sid ∧
      hasSessionHeader (buildHeaders (handleSessionId respHeaders choices)) = true) ∧
    (sessionIdFromHeaders respHeaders ≠ none →
      (hasSessionHeader (buildHeaders (handleSessionId respHeaders choices)) = true ↔
        finishReasonOf choices ≠ some "stop")) ∧
    (hasSessionHeader (buildHeaders (handleSessionId respHeaders choices)) = true ↔
      handleSessionId respHeaders choices ≠ none) := by
  refine ⟨?_, ?_, ?_, ?_, ?_⟩
  · intro hfr
    unfold handleSessionId
    cases hs : sessionIdFromHeaders respHeaders
    · rfl
    · simp [hfr]
  · intro hs
    unfold handleSessionId
    rw [hs]
  · intro sid hs hne
    have h1 : handleSessionId respHeaders choices = some sid := by
      unfold handleSessionId
      rw [hs]
      simp only [beq_iff_eq]
      exact if_neg hne
    exact ⟨h1, by rw [hasSessionHeader_buildHeaders, h1]; rfl⟩
  · intro hne
    rw [hasSessionHeader_buildHeaders]
    unfold handleSessionId
    cases hs : sessionIdFromHeaders respHeaders
    · exact absurd hs hne
    · by_cases hfr : finishReasonOf choices = some "stop" <;>
        simp [hfr]
  · rw [hasSessionHeader_buildHeaders]
    cases handleSessionId respHeaders choices <;> simp

/-- Witness for C1 at a concrete response: a `tool_calls` finish reason
caches the header id and attaches it to the next request; a `stop` finish
reason clears it. -/
theorem C1_session_header_iff_witness :
    handleSessionId [("X-Session-Id", "abc")] [some "tool_calls"] = some "abc" ∧
    hasSessionHeader (buildHeaders
      (handleSessionId [("X-Session-Id", "abc")] [some "tool_calls"])) = true ∧
    handleSessionId [("X-Session-Id", "abc")] [some "stop"] = none :=
  ⟨((C1_session_header_iff [("X-Session-Id", "abc")] [some "tool_calls"]).2.2.1
      "abc" (by decide) (by decide)).1,
   ((C1_session_header_iff [("X-Session-Id", "abc")] [some "tool_calls"]).2.2.1
      "abc" (by decide) (by decide)).2,
   (C1_session_header_iff [("X-Session-Id", "abc")] [some "stop"]).1 rfl⟩

/-- Counterexample to C2: four consecutive identical failed
`click_element("9")` attempts (failed outcome, URL unchanged) are all
executed by `main`'s loop — after the third failure its
`actions_without_progress` counter is only 3, below the hard-coded bound 5,
so no stuck abort happens before the fourth attempt.  (`main` never calls
`track_progress`, so no stuck counter of threshold 3 is consulted.) -/
theorem C2_stuck_counter_cex :
    (runMainLoop ⟨0, none⟩ (List.replicate 4 (false, "https://site/page"))).2 =
      (4, false) ∧
    (runMainLoop ⟨0, none⟩ (List.replicate 3 (false, "https://site/page"))).1.actionsWithoutProgress = 3 := by
  exact ⟨rfl, rfl⟩

/-- C2 amended: `track_progress` does return stuck = `True` on the third
consecutive identical failed fingerprint, but `main` never invokes it; the
control loop aborts only through its own `actions_without_progress` counter,
which is incremented on every failed action and trips at 5, so the fifth
consecutive failure — not the third identical one — ends the task. -/
theorem C2_stuck_counter_amended :
    (let k := "\x7b\"label\": \"9\"\x7d"
     let r1 := trackProgress ⟨[], none, 0⟩ "click_element" k false "u"
     let r2 := trackProgress r1.1 "click_element" k false "u"
     let r3 := trackProgress r2.1 "click_element" k false "u"
     r1.2 = false ∧ r2.2 = false ∧ r3.2 = true) ∧
    (∀ (st : MainLoopState) (url : String),
      (mainLoopUpdate st false url).2 =
        decide (5 ≤ st.actionsWithoutProgress + 1)) ∧
    (runMainLoop ⟨0, none⟩ (List.replicate 5 (false, "u"))).2 = (5, true) := by
  refine ⟨by decide, fun st url => rfl, rfl⟩

/-- C3: at the failing input — label `"7"` present, native click raising,
JavaScript click able to succeed — `execute_action` returns a failure whose
message is the stringified `NameError`, because the `except` handler's
`logger.warning` call references the undefined module-level `logger` before
the JS-click fallback line can run.  The claimed `success=true` outcome is
not produced. -/
theorem C3_click_fallback_bug :
    cuaClickElement ["7"] "7" false true =
      (["scrollIntoView", "setTargetSelf", "nativeClick"], false,
        "Error executing click_element: name \x27logger\x27 is not defined") ∧
    (cuaClickElement ["7"] "7" false true).2.1 = false :=
  ⟨rfl, rfl⟩

/-- Counterexample to C4: entering `SequrityCUAMultiTurn.get_next_action`
clears the client's session token while the accumulated turn history is
retained — a reachable state (the start of every multi-turn exchange after
the first) in which the token was reset for a new exchange but the history
was not. -/
theorem C4_atomic_reset_cex :
    (mtGetNextActionEnter
        ⟨some "sess-1", [⟨"user", "task"⟩, ⟨"assistant", "plan"⟩]⟩
        ⟨"user", "observation-2"⟩).clientSessionId = none ∧
    (mtGetNextActionEnter
        ⟨some "sess-1", [⟨"user", "task"⟩, ⟨"assistant", "plan"⟩]⟩
        ⟨"user", "observation-2"⟩).messages =
      [⟨"user", "task"⟩, ⟨"assistant", "plan"⟩, ⟨"user", "observation-2"⟩] :=
  ⟨rfl, rfl⟩

/-- C4 amended: `SequrityCUA.reset_session` does clear the session token and
the turn history (and all progress fields) together in one call, but
`SequrityCUAMultiTurn.get_next_action` clears the session token at the start
of every exchange while retaining — and extending — the accumulated turn
history, so in the multi-turn agent the two are reset independently. -/
theorem C4_atomic_reset_amended :
    (∀ st : CuaAgentState, cuaResetSession st = ⟨none, [], [], none, 0⟩) ∧
    (∀ (st : MtAgentState) (obs : Turn),
      (mtGetNextActionEnter st obs).clientSessionId = none ∧
      (mtGetNextActionEnter st obs).messages = st.messages ++ [obs]) :=
  ⟨fun _ => rfl, fun _ _ => ⟨rfl, rfl⟩⟩

/-- Counterexample to C5: a FAILED `click_element` on an unchanged URL (first
failure, so the repeated-failure early return does not fire) still increments
the stuck counter — the URL-based increment is not restricted to successful
actions. -/
theorem C5_url_increment_cex :
    (trackProgress ⟨[], some "u", 0⟩ "click_element" "\x7b\"label\": \"9\"\x7d"
        false "u").1.stuckCount = 1 := by
  decide

/-- C5 amended: whenever the repeated-failure early return does not fire, the
URL rule applies to every action regardless of success: an unchanged URL
increments the counter unless the action kind is URL-agnostic
(wait/scroll_page/type_text), and a changed URL resets it to zero; `last_url`
is then updated. -/
theorem C5_url_increment_amended (st : ProgressState)
    (toolName argsDump currentUrl : String) (success : Bool)
    (h : repeatedFailureFires st (failedKey toolName argsDump) success = false) :
    ((trackProgress st toolName argsDump success currentUrl).1.stuckCount =
        if st.lastUrl = some currentUrl then
          (if nonNavigationActions.contains toolName then st.stuckCount
           else st.stuckCount + 1)
        else 0) ∧
    (trackProgress st toolName argsDump success currentUrl).1.lastUrl =
      some currentUrl := by
  unfold trackProgress
  simp only [h, Bool.false_eq_true, if_false]
  by_cases hurl : st.lastUrl = some currentUrl <;>
    by_cases hnav : toolName ∈ nonNavigationActions <;>
      simp [hurl, hnav]

/-- Witness for C5 amended: a successful `click_element` on an unchanged URL
increments the counter from 0 to 1; a successful `go_back` on a changed URL
resets it to 0. -/
theorem C5_url_increment_witness :
    ((trackProgress ⟨[], some "u", 0⟩ "click_element" "\x7b\"label\": \"3\"\x7d"
        true "u").1.stuckCount = if (some "u" : Option String) = some "u" then
          (if nonNavigationActions.contains "click_element" then 0 else 0 + 1)
        else 0) ∧
    ((trackProgress ⟨[], some "u", 2⟩ "go_back" "\x7b\x7d" true "v").1.stuckCount =
        if (some "u" : Option String) = some "v" then
          (if nonNavigationActions.contains "go_back" then 2 else 2 + 1)
        else 0) :=
  ⟨(C5_url_increment_amended ⟨[], some "u", 0⟩ "click_element"
      "\x7b\"label\": \"3\"\x7d" "u" true (by decide)).1,
   (C5_url_increment_amended ⟨[], some "u", 2⟩ "go_back" "\x7b\x7d" "v" true
      (by decide)).1⟩

/-- Counterexample to C6: the multi-turn executor's WINDOW scroll is a fixed
±500 pixels, so on a 900px-tall viewport a downward window scroll moves the
page by 500px where the claim requires two thirds of the viewport (600px);
only the tool-calling executor of sequrity_cua.py scrolls 2/3 of the
viewport. -/
theorem C6_window_scroll_cex :
    mtWindowScrollDelta "down" = 500 ∧
    cuaWindowScrollDelta 900 "down" = 600 ∧
    mtWindowScrollDelta "down" ≠ cuaWindowScrollDelta 900 "down" :=
  ⟨rfl, rfl, by decide⟩

/-- C6 amended: in sequrity_cua.py the WINDOW scroll amount is
`window_height * 2 // 3`, signed by direction (exactly two thirds whenever
the height is divisible by 3, hence +600 on a 900px viewport); the multi-turn
executor instead scrolls a fixed 500, signed by direction, independent of the
viewport. -/
theorem C6_window_scroll_amended (h : Nat) (d : String) :
    cuaWindowScrollDelta h d =
      (if d = "down" then ((h * 2 / 3 : Nat) : Int) else -((h * 2 / 3 : Nat) : Int)) ∧
    mtWindowScrollDelta d = (if d = "down" then (500 : Int) else -500) ∧
    (h % 3 = 0 → ((h * 2 / 3 : Nat) : Int) * 3 = 2 * (h : Int)) := by
  refine ⟨?_, ?_, ?_⟩
  · by_cases hd : d = "down" <;> simp [cuaWindowScrollDelta, hd]
  · by_cases hd : d = "down" <;> simp [mtWindowScrollDelta, hd]
  · intro h3
    have hn : h * 2 / 3 * 3 = 2 * h := by omega
    exact_mod_cast hn

/-- Witness for C6 amended at the claim's scenario: a 900px viewport scrolls
+600px downward in sequrity_cua.py, and 600 is exactly two thirds of 900. -/
theorem C6_window_scroll_witness :
    cuaWindowScrollDelta 900 "down" =
      (if "down" = "down" then ((900 * 2 / 3 : Nat) : Int)
       else -((900 * 2 / 3 : Nat) : Int)) ∧
    ((900 * 2 / 3 : Nat) : Int) * 3 = 2 * (900 : Int) :=
  ⟨(C6_window_scroll_amended 900 "down").1,
   (C6_window_scroll_amended 900 "down").2.2 (by decide)⟩

/-- Counterexample to C7: a `null` content value (as responses carry on
assistant tool-call messages) is not a string, so after `json.loads` raises a
caught `TypeError` the code reaches `content.strip()` and raises an uncaught
`AttributeError` — an input content value on which extraction does raise. -/
theorem C7_extract_total_cex :
    extractContent Json.null = Except.error "AttributeError" :=
  rfl

/-- C7 amended: message-content extraction is total exactly on string
contents — for every string it returns a value (unwrapping, best-effort
quasi-JSON conversion, or the raw string fallback, never an exception) —
while every non-string content value raises `AttributeError` at the
`content.strip()` step. -/
theorem C7_extract_total_amended (v : Json) :
    (extractContent v).isOk = v.isStr := by
  cases v with
  | str s =>
    show (extractContent (.str s)).isOk = true
    unfold extractContent
    cases hu : extractContentUnwrap (.str s) with
    | some r => rfl
    | none =>
      simp only []
      by_cases hst : (s.trim.startsWith "\x7b\x27" || s.trim.startsWith "\x7b\"") = true
      · simp only [hst, if_true]
        cases hj : jsonLoads (s.trim.replace "\x27" "\"") <;> rfl
      · simp only [hst, Bool.false_eq_true, if_false]
        rfl
  | null => rfl
  | bool b => rfl
  | int n => rfl
  | arr l => rfl
  | obj kvs => rfl

/-- Helper: a label outside the labeled set is never matched by the
executors' exact-string scan. -/
theorem find_label_none (lbl : String) (labels : List String)
    (h : lbl ∉ labels) : labels.find? (fun l => l == lbl) = none := by
  rw [List.find?_eq_none]
  intro x hx
  simp only [beq_iff_eq]
  exact fun he => h (he ▸ hx)

/-- C8: a label absent from the most recent labeled-element set makes
`click_element` and `type_text` (in both executors) perform no browser
operation and return the failed outcome
`"Element with label [<label>] not found"`; in the control loop such a
failure is reported and, while the failure counter stays below the stuck
bound, never breaks the loop by itself. -/
theorem C8_element_not_found (lbl content : String) (labels : List String)
    (nativeClickOk jsClickOk : Bool) (h : lbl ∉ labels) :
    cuaClickElement labels lbl nativeClickOk jsClickOk =
      ([], false, notFoundMsg lbl) ∧
    cuaTypeText labels lbl content = ([], false, notFoundMsg lbl) ∧
    mtClickElement labels lbl jsClickOk = ([], false, notFoundMsg lbl) ∧
    mtTypeText labels lbl content = ([], false, notFoundMsg lbl) ∧
    (∀ (st : MainLoopState) (url : String),
      st.actionsWithoutProgress + 1 < 5 →
      (mainLoopUpdate st false url).2 = false) := by
  have hf := find_label_none lbl labels h
  refine ⟨?_, ?_, ?_, ?_, ?_⟩
  · simp [cuaClickElement, hf]
  · simp [cuaTypeText, hf]
  · simp [mtClickElement, hf]
  · simp [mtTypeText, hf]
  · intro st url hlt
    simp only [mainLoopUpdate, Bool.not_false, if_true, decide_eq_false_iff_not]
    omega

/-- Witness for C8 at a concrete miss: label `"9"` absent from the set
`["0", "1", "2"]` yields the not-found failure with no browser operation,
and one such failure from a fresh loop state does not break the loop. -/
theorem C8_element_not_found_witness :
    cuaClickElement ["0", "1", "2"] "9" true true =
      ([], false, notFoundMsg "9") ∧
    (mainLoopUpdate ⟨0, none⟩ false "https://site/page").2 = false :=
  ⟨(C8_element_not_found "9" "query" ["0", "1", "2"] true true (by decide)).1,
   (C8_element_not_found "9" "query" ["0", "1", "2"] true true
      (by decide)).2.2.2.2 ⟨0, none⟩ "https://site/page" (by decide)⟩

/-- The recognized wrapper shape
`{"final_return_value": {"value": V}}` as a parsed value. -/
def finalReturnWrapper (v : Json) : Json :=
  .obj [("final_return_value", .obj [("value", v)])]

/-- The claim's concrete scenario content. -/
def c9Content : String :=
  "\x7b\"final_return_value\": \x7b\"value\": \x7b\"thought\": \"t1\", \"action\": \"Click [4]\"\x7d\x7d\x7d"

/-- The inner value `V` of the scenario. -/
def c9Value : Json :=
  .obj [("thought", .str "t1"), ("action", .str "Click [4]")]

/-- Helper: when the content parses to the exact wrapper shape, the first
`try` block of `_extract_content` returns the formatted inner value. -/
theorem unwrap_of_loads (s : String) (v : Json)
    (h : jsonLoads s = some (finalReturnWrapper v)) :
    extractContentUnwrap (.str s) = some (formatValue v) := by
  simp [extractContentUnwrap, h, finalReturnWrapper, pyContains, pyIndex]

/-- C9: a content that is the JSON string
`{"final_return_value": {"value": V}}` extracts to `V` formatted: a dict with
truthy thought/action fields (lowercase or capitalized keys) renders the two
lines `Thought: …` / `Action: …`, a non-dict `V` renders as its
stringification, and the claim's concrete scenario normalizes to
`"Thought: t1\nAction: Click [4]"`. -/
theorem C9_final_value_format :
    (∀ (s : String) (v : Json), jsonLoads s = some (finalReturnWrapper v) →
      extractContent (.str s) = .ok (formatValue v)) ∧
    (∀ t a : String, t ≠ "" → a ≠ "" →
      formatValue (.obj [("thought", .str t), ("action", .str a)]) =
        "Thought: " ++ t ++ "\n" ++ ("Action: " ++ a) ∧
      formatValue (.obj [("Thought", .str t), ("Action", .str a)]) =
        "Thought: " ++ t ++ "\n" ++ ("Action: " ++ a)) ∧
    (∀ v : Json, v.isObj = false → formatValue v = pyStr v) ∧
    extractContent (.str c9Content) = .ok "Thought: t1\nAction: Click [4]" := by
  refine ⟨?_, ?_, ?_, ?_⟩
  · intro s v h
    unfold extractContent
    rw [unwrap_of_loads s v h]
  · intro t a ht ha
    have ht' : (t != "") = true := by simpa using ht
    have ha' : (a != "") = true := by simpa using ha
    constructor <;>
      simp [formatValue, pyGet, pyOr, truthy, pyStr, joinLines, ht', ha']
  · intro v hv
    cases v <;> simp_all [formatValue, Json.isObj]
  · rfl

/-- Witness for C9 at the claim's concrete scenario. -/
theorem C9_final_value_format_witness :
    extractContent (.str c9Content) = .ok (formatValue c9Value) ∧
    formatValue (.obj [("thought", .str "t1"), ("action", .str "Click [4]")]) =
      "Thought: " ++ "t1" ++ "\n" ++ ("Action: " ++ "Click [4]") :=
  ⟨C9_final_value_format.1 c9Content c9Value (by rfl),
   (C9_final_value_format.2.1 "t1" "Click [4]" (by decide) (by decide)).1⟩

/-- C10: when a normalized response carries several tool calls, the
`get_next_action` of both agents records and returns exactly the first one —
the assistant turn stores `[tool_calls[0]]` alone, the returned action
carries that call's id, name and parsed arguments, and the remaining tool
calls have no effect on the result. -/
theorem C10_first_tool_call_only (content : String) (tc : ToolCallRec)
    (rest : List ToolCallRec) :
    cuaGetNextActionStep content (tc :: rest) =
      cuaGetNextActionStep content [tc] ∧
    (cuaGetNextActionStep content (tc :: rest)).1.toolCalls = [tc] ∧
    (cuaGetNextActionStep content (tc :: rest)).2 =
      some ⟨tc.name, jsonLoads tc.arguments, content, tc.id⟩ ∧
    mtGetNextActionStep content (tc :: rest) =
      mtGetNextActionStep content [tc] ∧
    (mtGetNextActionStep content (tc :: rest)).2 =
      some ⟨tc.name, jsonLoads tc.arguments, content, tc.id⟩ :=
  ⟨rfl, rfl, rfl, rfl, rfl⟩
